import Mathlib

/-!
Verification of the python-mcp-sandbox core against its design document.

The development shallowly embeds the three source files of the repository:

* `python_code_sandbox.py` — the static analyzer (`SecurityChecker`, the
  syntax-check tool, the `test_code` pipeline, `_get_platform_warning`);
* `safe_executor.py` — the sandbox launcher (`SafeExecutor.run`, the
  pre-exec resource-limit setup, the two identifier lists substituted into
  the inner runtime template).

Pure Python functions become Lean functions.  External machinery that the
repository merely calls (the CPython parser, `json.loads`, the operating
system process layer, the pywin32 Job-Object API) is abstracted into
explicit input data: a `ParseOutcome` stands for the result of
`ast.parse`, a `RunInput` records what the child process did (whether the
wall-clock deadline fired, the captured streams, the result of
`json.loads` on the captured stdout, the exit status), and a
`PlatformState` enumerates the platform branches of the launcher.  The
branching and data construction performed by the repository itself is
translated line by line from the source.
-/

/-! ## A model of JSON values (`json.dumps` / `json.loads` results).
Numbers are modelled as integers, which covers every numeric field the
program ever constructs (exit codes and source positions). -/

inductive JsonValue where
  | null
  | bool (b : Bool)
  | num (n : Int)
  | str (s : String)
  | arr (elems : List JsonValue)
  | obj (fields : List (String × JsonValue))

/-- Field lookup in a JSON object, first binding wins (Python dicts have
unique keys, so on records built by the program this is exact). -/
def jsonFieldsLookup : List (String × JsonValue) → String → Option JsonValue
  | [], _ => none
  | (k, v) :: rest, key => if k = key then some v else jsonFieldsLookup rest key

def jsonLookup : JsonValue → String → Option JsonValue
  | .obj fs, key => jsonFieldsLookup fs key
  | _, _ => none

/-- `d[k] = v` on a Python dict: replace the binding when the key exists,
append it otherwise. -/
def jsonSetField (fields : List (String × JsonValue)) (key : String) (v : JsonValue) :
    List (String × JsonValue) :=
  if fields.any (fun kv => kv.1 == key) then
    fields.map (fun kv => if kv.1 == key then (key, v) else kv)
  else
    fields ++ [(key, v)]

/-! ## Python string primitives used by the source. -/

/-- The whitespace characters removed by Python `str.strip()` (ASCII part). -/
def pyIsSpace (c : Char) : Bool :=
  c = ' ' || c = '\t' || c = '\n' || c = '\r' || c = '\x0b' || c = '\x0c'

/-- Python `s.strip()`: drop leading and trailing whitespace. -/
def pyStrip (s : String) : String :=
  String.mk (((s.toList.dropWhile pyIsSpace).reverse.dropWhile pyIsSpace).reverse)

/-- Python `s.split(c, 1)[0]` (also `s.split(c)[0]`): the text before the
first occurrence of `c`, the whole string when `c` does not occur. -/
def pyTakeUntil (c : Char) (s : String) : String :=
  String.mk (s.toList.takeWhile (fun a => a != c))

/-- `name.split(".")[0]` — the top-level component of a dotted module name. -/
def pyBaseModule (name : String) : String :=
  pyTakeUntil '.' name

def pySplitlinesAux : List Char → List Char → List String
  | [], acc => if acc.isEmpty then [] else [String.mk acc.reverse]
  | '\r' :: '\n' :: rest, acc => String.mk acc.reverse :: pySplitlinesAux rest []
  | '\r' :: rest, acc => String.mk acc.reverse :: pySplitlinesAux rest []
  | '\n' :: rest, acc => String.mk acc.reverse :: pySplitlinesAux rest []
  | c :: rest, acc => pySplitlinesAux rest (c :: acc)

/-- Python `s.splitlines()` over the line terminators `\n`, `\r\n`, `\r`:
no trailing empty line, and `"".splitlines() = []`. -/
def pySplitlines (s : String) : List String :=
  pySplitlinesAux s.toList []

/-! ## The static analyzer (`SecurityChecker` in `python_code_sandbox.py`). -/

/-- `SecurityChecker.DANGEROUS_NAMES`, transcribed from the source. -/
def SecurityChecker.DANGEROUS_NAMES : List String :=
  ["open", "__import__", "eval", "exec", "compile",
   "getattr", "setattr", "globals", "locals", "input",
   "help", "dir", "vars", "breakpoint", "memoryview"]

/-- `SecurityChecker.DANGEROUS_MODULES`, transcribed from the source. -/
def SecurityChecker.DANGEROUS_MODULES : List String :=
  ["os", "sys", "subprocess", "shutil", "socket",
   "requests", "urllib", "pathlib", "inspect", "types",
   "ctypes", "pickle", "marshal", "builtins", "platform",
   "resource", "signal"]

/-! A fragment of the Python abstract syntax tree, large enough to cover
every node kind the analyzer treats specially (`Import`, `ImportFrom`,
`Call` with the callee shape distinguished) together with representative
expression and compound-statement kinds through which `generic_visit`
recurses.  Child fields appear in the order `ast.iter_child_nodes`
yields them, which is the order the visitor traverses. -/

mutual
inductive PyExpr where
  | name (id : String)
  | constant
  | attr (value : PyExpr) (attrName : String)
  | subscript (value : PyExpr) (slice : PyExpr)
  | binOp (left : PyExpr) (right : PyExpr)
  | call (func : PyExpr) (args : PyExprList)
inductive PyExprList where
  | nil
  | cons (head : PyExpr) (tail : PyExprList)
end

mutual
inductive PyStmt where
  | exprStmt (value : PyExpr)
  | assign (target : PyExpr) (value : PyExpr)
  | importStmt (names : List String)
  | importFrom (module : Option String) (names : List String) (level : Nat)
  | funcDef (name : String) (body : PyStmtList)
  | ifStmt (test : PyExpr) (body : PyStmtList) (orelse : PyStmtList)
  | whileStmt (test : PyExpr) (body : PyStmtList)
inductive PyStmtList where
  | nil
  | cons (head : PyStmt) (tail : PyStmtList)
end

/-- `visit_Call`: a violation is recorded exactly when the callee is a bare
identifier (`isinstance(node.func, ast.Name)`) in `DANGEROUS_NAMES`. -/
def calleeViolation (f : PyExpr) : List String :=
  match f with
  | .name id =>
      if id ∈ SecurityChecker.DANGEROUS_NAMES then
        ["Call to dangerous function: " ++ id]
      else []
  | _ => []

mutual
def exprViolations : PyExpr → List String
  | .name _ => []
  | .constant => []
  | .attr v _ => exprViolations v
  | .subscript v s => exprViolations v ++ exprViolations s
  | .binOp l r => exprViolations l ++ exprViolations r
  | .call f args => calleeViolation f ++ exprViolations f ++ exprListViolations args
def exprListViolations : PyExprList → List String
  | .nil => []
  | .cons e es => exprViolations e ++ exprListViolations es
end

/-- `visit_Import`: one violation per alias whose top-level component is
dangerous, in alias order. -/
def importAliasViolations : List String → List String
  | [] => []
  | a :: rest =>
      (if pyBaseModule a ∈ SecurityChecker.DANGEROUS_MODULES then
        ["Import of dangerous module: " ++ pyBaseModule a]
      else []) ++ importAliasViolations rest

/-- `visit_ImportFrom`: the check runs only under `if node.module:`; the
relative-import level is never consulted. -/
def importFromViolation (module : Option String) : List String :=
  match module with
  | some m =>
      if pyBaseModule m ∈ SecurityChecker.DANGEROUS_MODULES then
        ["Import from dangerous module: " ++ pyBaseModule m]
      else []
  | none => []

mutual
def stmtViolations : PyStmt → List String
  | .exprStmt e => exprViolations e
  | .assign t v => exprViolations t ++ exprViolations v
  | .importStmt names => importAliasViolations names
  | .importFrom module _ _ => importFromViolation module
  | .funcDef _ body => stmtListViolations body
  | .ifStmt c b o => exprViolations c ++ stmtListViolations b ++ stmtListViolations o
  | .whileStmt c b => exprViolations c ++ stmtListViolations b
def stmtListViolations : PyStmtList → List String
  | .nil => []
  | .cons s ss => stmtViolations s ++ stmtListViolations ss
end

/-- `SecurityChecker.scan` on an already-parsed module body. -/
def SecurityChecker.scan (tree : PyStmtList) : List String :=
  stmtListViolations tree

/-! Occurrence predicates: where a dangerous construct appears in a tree.
These formalize the spec side of the completeness claims. -/

/-- The callee of a call expression is the bare identifier `n`. -/
def calleeIsBare (n : String) : PyExpr → Bool
  | .name id => id == n
  | _ => false

mutual
def exprHasBareCall (n : String) : PyExpr → Bool
  | .name _ => false
  | .constant => false
  | .attr v _ => exprHasBareCall n v
  | .subscript v s => exprHasBareCall n v || exprHasBareCall n s
  | .binOp l r => exprHasBareCall n l || exprHasBareCall n r
  | .call f args => calleeIsBare n f || exprHasBareCall n f || exprListHasBareCall n args
def exprListHasBareCall (n : String) : PyExprList → Bool
  | .nil => false
  | .cons e es => exprHasBareCall n e || exprListHasBareCall n es
end

mutual
/-- Some statement in the tree (descending through compound-statement
bodies) satisfies `p`. -/
def stmtHas (p : PyStmt → Bool) : PyStmt → Bool
  | .funcDef nm body => p (.funcDef nm body) || stmtListHas p body
  | .ifStmt c b o => p (.ifStmt c b o) || stmtListHas p b || stmtListHas p o
  | .whileStmt c b => p (.whileStmt c b) || stmtListHas p b
  | s => p s
def stmtListHas (p : PyStmt → Bool) : PyStmtList → Bool
  | .nil => false
  | .cons s ss => stmtHas p s || stmtListHas p ss
end

/-- One of the expressions sitting directly in this statement contains a
call whose callee is the bare identifier `n`. -/
def bareCallAt (n : String) : PyStmt → Bool
  | .exprStmt e => exprHasBareCall n e
  | .assign t v => exprHasBareCall n t || exprHasBareCall n v
  | .ifStmt c _ _ => exprHasBareCall n c
  | .whileStmt c _ => exprHasBareCall n c
  | _ => false

/-- The statement is an import statement with an alias whose top-level
package is `m`. -/
def importOfAt (m : String) : PyStmt → Bool
  | .importStmt names => names.any (fun a => pyBaseModule a == m)
  | _ => false

/-- The statement is an absolute from-import whose top-level package is `m`. -/
def importFromAt (m : String) : PyStmt → Bool
  | .importFrom (some mod) _ lvl => lvl == 0 && pyBaseModule mod == m
  | _ => false

/-- The statement is a relative from-import (`level > 0`) with a written
module name whose first dotted component is `b`. -/
def relFromAt (b : String) : PyStmt → Bool
  | .importFrom (some mod) _ lvl => lvl != 0 && pyBaseModule mod == b
  | _ => false

/-! ## The sandbox launcher (`safe_executor.py`). -/

/-- The `dangerous_names` list literal substituted into the inner runtime
template by `SafeExecutor._generate_sandbox_script`, transcribed from the
source. -/
def sandboxDangerousNames : List String :=
  ["__import__", "eval", "exec", "compile",
   "getattr", "setattr", "globals", "locals",
   "help", "dir", "vars", "breakpoint", "memoryview"]

/-- The `dangerous_modules` list literal substituted into the inner runtime
template by `SafeExecutor._generate_sandbox_script`, transcribed from the
source. -/
def sandboxDangerousModules : List String :=
  ["subprocess", "shutil",
   "requests", "urllib", "pathlib", "inspect", "types",
   "ctypes", "pickle", "marshal", "builtins",
   "resource", "signal",
   "getpass", "os"]

/-- Actions the launcher performs on the child-process handle. -/
inductive ProcAction where
  | waitChild (seconds : Rat)
  | kill
deriving DecidableEq

/-- What one evaluation of the child process yielded, abstracting the
operating-system process layer and `json.loads`:
`timedOut` — whether `process.communicate(timeout=timeout)` raised
`TimeoutExpired`; `stdout`/`stderr` — the captured text streams;
`parsed` — the result of `json.loads(stdout)` (`none` when it raised);
`exitCode` — `process.returncode`. -/
structure RunInput where
  timedOut : Bool
  stdout : String
  stderr : String
  parsed : Option JsonValue
  exitCode : Int

structure RunOutcome where
  actions : List ProcAction
  record : JsonValue

def parseFailureMsg : String :=
  "Failed to parse sandbox output or sandbox did not return JSON."

/-- `SafeExecutor.run`, after the child has been spawned: the wait /
timeout / result-parsing logic of `safe_executor.py`.  On timeout the
child is killed and a one-second drain wait is attempted, whose result is
discarded; otherwise the child stdout is parsed as JSON and returned
as-is, falling back to a synthetic record when parsing fails. -/
def SafeExecutor.run (timeout : Rat) (inp : RunInput) : RunOutcome :=
  if inp.timedOut then
    { actions := [.waitChild timeout, .kill, .waitChild 1],
      record := .obj
        [("stdout", .str ""),
         ("stderr", .str ("Execution timed out after " ++ toString timeout ++ " seconds")),
         ("exit_code", .num 124)] }
  else
    match inp.parsed with
    | some v => { actions := [.waitChild timeout], record := v }
    | none =>
        { actions := [.waitChild timeout],
          record := .obj
            [("stdout", .str inp.stdout),
             ("stderr", .str (if inp.stderr = "" then parseFailureMsg else inp.stderr)),
             ("exit_code", .num (if inp.exitCode ≠ 0 then inp.exitCode else 1))] }

inductive RLimitKind where
  | cpu
  | addressSpace
deriving DecidableEq

structure RLimit where
  kind : RLimitKind
  soft : Int
  hard : Int
deriving DecidableEq

/-- Python `int(x)` on a float: truncation toward zero. -/
def pyInt (q : Rat) : Int :=
  if q < 0 then -(Int.floor (-q)) else Int.floor q

/-- `preexec_set_limits` from `SafeExecutor.run` (Unix path): the rlimits
installed in the child before `exec`, as (kind, soft, hard) triples. -/
def preexec_set_limits (cpu_limit_sec : Rat) (memory_limit_mb : Int) : List RLimit :=
  (if cpu_limit_sec > 0 then
    [{ kind := .cpu, soft := pyInt cpu_limit_sec, hard := pyInt cpu_limit_sec }]
  else []) ++
  (if memory_limit_mb > 0 then
    [{ kind := .addressSpace, soft := memory_limit_mb * 1024 * 1024,
       hard := memory_limit_mb * 1024 * 1024 }]
  else [])

/-- The platform environments distinguished by the launcher's branching:
Unix (pre-exec rlimits), Windows with a working pywin32 Job-Object API,
Windows where `import win32job` raises `ImportError`, and Windows where
pywin32 imports but a Job-Object call raises (the `except Exception`
branch of `SafeExecutor.run`). -/
inductive PlatformState where
  | unix
  | windowsJobOk
  | windowsNoPywin32
  | windowsJobFails
deriving DecidableEq

/-- Whether `import win32job` succeeds in this environment. -/
def pywin32Importable : PlatformState → Bool
  | .unix => false
  | .windowsJobOk => true
  | .windowsNoPywin32 => false
  | .windowsJobFails => true

/-- Whether the spawn applied the platform resource-limit mechanism: the
Unix branch passes `preexec_fn=preexec_set_limits`; the Windows branch
assigns the child to a configured Job Object only when every pywin32 call
succeeds; both fallback branches spawn with no limit mechanism at all. -/
def limitMechanismEngaged : PlatformState → Bool
  | .unix => true
  | .windowsJobOk => true
  | .windowsNoPywin32 => false
  | .windowsJobFails => false

/-- Whether the launcher abandons the evaluation in this environment: it
never does — every branch, including both Windows fallbacks, proceeds to
`subprocess.Popen`. -/
def abortsEvaluation : PlatformState → Bool
  | _ => false

def reducedLimitsWarning : String :=
  "Windows resource limits may be less effective (install pywin32 for full support via Job Objects)."

def pywin32ActiveWarning : String :=
  "Windows sandbox active with pywin32 support."

/-- `_get_platform_warning` from `python_code_sandbox.py`: empty on Unix,
otherwise chosen by whether `import win32job` succeeds — the function
never consults whether the Job-Object calls made by the launcher
actually succeeded. -/
def getPlatformWarning (p : PlatformState) : String :=
  match p with
  | .unix => ""
  | pp => if pywin32Importable pp then pywin32ActiveWarning else reducedLimitsWarning

/-! ## The static pipeline entry points of `python_code_sandbox.py`. -/

/-- The result of `ast.parse(code)`, abstracting the CPython parser:
success carries the tree; `syntaxError` carries `str(e)`, `e.lineno` and
`e.offset` of the raised `SyntaxError`; `internalError` carries `str(e)`
of any other exception. -/
inductive ParseOutcome where
  | ok (tree : PyStmtList)
  | syntaxError (msg : String) (lineno : Option Int) (offset : Option Int)
  | internalError (msg : String)

def jsonOfOptInt : Option Int → JsonValue
  | none => .null
  | some i => .num i

/-- The `error_line` computation of the `check_syntax` tool: the raw
offending line, recovered from `code.splitlines()` when the reported
1-indexed line number is truthy and in range (`if e.lineno and
0 < e.lineno <= len(context_lines)`), empty otherwise. -/
def syntaxContextLine (code : String) (lineno : Option Int) : String :=
  let contextLines := pySplitlines code
  match lineno with
  | some l =>
      if l ≠ 0 ∧ 0 < l ∧ l ≤ (contextLines.length : Int) then
        contextLines.getD (l - 1).toNat ""
      else ""
  | none => ""

/-- The `check_syntax` tool: the JSON record it serializes, transcribed
from the source (`str(e).split("(", 1)[0].strip()` for the error text,
the offending line trimmed for the context). -/
def checkSyntaxTool (code : String) (po : ParseOutcome) : JsonValue :=
  match po with
  | .ok _ => .obj [("valid", .bool true)]
  | .syntaxError msg lineno offset =>
      .obj [("valid", .bool false),
            ("error", .str (pyStrip (pyTakeUntil '(' msg))),
            ("line", jsonOfOptInt lineno),
            ("offset", jsonOfOptInt offset),
            ("context", .str
              (if syntaxContextLine code lineno ≠ "" then
                pyStrip (syntaxContextLine code lineno)
              else ""))]
  | .internalError msg =>
      .obj [("valid", .bool false),
            ("error", .str ("Internal syntax checker error: " ++ msg)),
            ("line", .null),
            ("offset", .null),
            ("context", .str "")]

inductive PipelineStep where
  | syntaxPhase
  | securityPhase
  | spawnPhase
deriving DecidableEq

/-- The non-code inputs of one `test_code` evaluation: the parser outcome,
the limits, the child-process behaviour, the platform, and `str(e)` for
the exception handler of the execution phase (reached when the child
record does not support item assignment). -/
structure TestCodeInput where
  po : ParseOutcome
  timeout : Rat
  runInp : RunInput
  platform : PlatformState
  exnMsg : String

/-- The `test_code` tool: the pipeline of `python_code_sandbox.py`,
returning the list of phases that ran together with the serialized JSON
reply. -/
def test_code (code : String) (inp : TestCodeInput) : List PipelineStep × JsonValue :=
  match inp.po with
  | .ok tree =>
      let violations := SecurityChecker.scan tree
      if violations ≠ [] then
        ([.syntaxPhase, .securityPhase],
         .obj [("valid", .bool false),
               ("phase", .str "security_check"),
               ("violations", .arr (violations.map JsonValue.str)),
               ("platform_warning", .str (getPlatformWarning inp.platform))])
      else
        let out := SafeExecutor.run inp.timeout inp.runInp
        match out.record with
        | .obj fs =>
            ([.syntaxPhase, .securityPhase, .spawnPhase],
             .obj (jsonSetField (jsonSetField fs "phase" (.str "execution"))
                     "platform_warning" (.str (getPlatformWarning inp.platform))))
        | _ =>
            ([.syntaxPhase, .securityPhase, .spawnPhase],
             .obj [("valid", .bool false),
                   ("phase", .str "execution"),
                   ("error", .str ("Sandbox execution failed: " ++ inp.exnMsg))])
  | po =>
      ([.syntaxPhase],
       match checkSyntaxTool code po with
       | .obj fs => .obj (jsonSetField fs "phase" (.str "syntax_check"))
       | other => other)

/-- The text before the last occurrence of the two-character pattern
`space`-`(`, when that pattern occurs. -/
def beforeLastSpaceParen : List Char → Option (List Char)
  | [] => none
  | c :: rest =>
      match beforeLastSpaceParen rest with
      | some l => some (c :: l)
      | none =>
          match c, rest with
          | ' ', '(' :: _ => some []
          | _, _ => none

def endsInParen (m : String) : Bool :=
  match m.toList.reverse with
  | ')' :: _ => true
  | _ => false

/-- Modelled from the spec (section 4.1 wording, used only to compare the
claimed error text against the code): the short message with a trailing
parenthesized source-position detail stripped, i.e. the text before the
last " (" when the message ends with ")". -/
def specShortMessage (m : String) : String :=
  if endsInParen m then
    match beforeLastSpaceParen m.toList with
    | some l => pyStrip (String.mk l)
    | none => pyStrip m
  else pyStrip m

/-! ## Concrete instances used to exercise the theorems below. -/

/-- Concrete program used to instantiate the completeness theorems:
`eval(1)`, `import os.path`, `from sys import argv` nested in a function. -/
def c1WitnessTree : PyStmtList :=
  .cons (.exprStmt (.call (.name "eval") (.cons .constant .nil)))
    (.cons (.importStmt ["os.path"])
      (.cons (.funcDef "f" (.cons (.importFrom (some "sys") ["argv"] 0) .nil)) .nil))

/-- A concrete `test_code` input whose parse fails with the classic
invalid-syntax report at line 1, column 9 (the code `print(2 +`). -/
def c6Input : TestCodeInput :=
  ⟨.syntaxError "invalid syntax (<string>, line 1)" (some 1) (some 9),
   15, ⟨false, "", "", none, 0⟩, .unix, ""⟩

/-! ## Completeness of the static scan (claims C1 and C10). -/

theorem calleeViolation_of_isBare (n : String)
    (hn : n ∈ SecurityChecker.DANGEROUS_NAMES) (f : PyExpr)
    (h : calleeIsBare n f = true) :
    ("Call to dangerous function: " ++ n) ∈ calleeViolation f := by
  cases f <;> simp [calleeIsBare] at h
  case name id =>
    subst h
    simp [calleeViolation, hn]

mutual
theorem exprBareCall_complete (n : String)
    (hn : n ∈ SecurityChecker.DANGEROUS_NAMES) :
    ∀ (e : PyExpr), exprHasBareCall n e = true →
      ("Call to dangerous function: " ++ n) ∈ exprViolations e
  | .name _, h => by simp [exprHasBareCall] at h
  | .constant, h => by simp [exprHasBareCall] at h
  | .attr v a, h => by
      have hv := exprBareCall_complete n hn v (by simpa [exprHasBareCall] using h)
      simpa [exprViolations] using hv
  | .subscript v s, h => by
      simp only [exprHasBareCall, Bool.or_eq_true] at h
      simp only [exprViolations, List.mem_append]
      rcases h with h | h
      · exact Or.inl (exprBareCall_complete n hn v h)
      · exact Or.inr (exprBareCall_complete n hn s h)
  | .binOp l r, h => by
      simp only [exprHasBareCall, Bool.or_eq_true] at h
      simp only [exprViolations, List.mem_append]
      rcases h with h | h
      · exact Or.inl (exprBareCall_complete n hn l h)
      · exact Or.inr (exprBareCall_complete n hn r h)
  | .call f args, h => by
      simp only [exprHasBareCall, Bool.or_eq_true] at h
      simp only [exprViolations, List.mem_append]
      rcases h with (h | h) | h
      · exact Or.inl (Or.inl (calleeViolation_of_isBare n hn f h))
      · exact Or.inl (Or.inr (exprBareCall_complete n hn f h))
      · exact Or.inr (exprListBareCall_complete n hn args h)
theorem exprListBareCall_complete (n : String)
    (hn : n ∈ SecurityChecker.DANGEROUS_NAMES) :
    ∀ (l : PyExprList), exprListHasBareCall n l = true →
      ("Call to dangerous function: " ++ n) ∈ exprListViolations l
  | .nil, h => by simp [exprListHasBareCall] at h
  | .cons e es, h => by
      simp only [exprListHasBareCall, Bool.or_eq_true] at h
      simp only [exprListViolations, List.mem_append]
      rcases h with h | h
      · exact Or.inl (exprBareCall_complete n hn e h)
      · exact Or.inr (exprListBareCall_complete n hn es h)
end

mutual
theorem stmtHas_complete (p : PyStmt → Bool) (target : String)
    (hp : ∀ s : PyStmt, p s = true → target ∈ stmtViolations s) :
    ∀ (s : PyStmt), stmtHas p s = true → target ∈ stmtViolations s
  | .exprStmt e, h => hp _ (by simpa [stmtHas] using h)
  | .assign t v, h => hp _ (by simpa [stmtHas] using h)
  | .importStmt names, h => hp _ (by simpa [stmtHas] using h)
  | .importFrom m names lvl, h => hp _ (by simpa [stmtHas] using h)
  | .funcDef nm body, h => by
      simp only [stmtHas, Bool.or_eq_true] at h
      rcases h with h | h
      · exact hp _ h
      · have hb := stmtListHas_complete p target hp body h
        simpa [stmtViolations] using hb
  | .ifStmt c b o, h => by
      simp only [stmtHas, Bool.or_eq_true] at h
      rcases h with (h | h) | h
      · exact hp _ h
      · have hb := stmtListHas_complete p target hp b h
        simp only [stmtViolations, List.mem_append]
        exact Or.inl (Or.inr hb)
      · have ho := stmtListHas_complete p target hp o h
        simp only [stmtViolations, List.mem_append]
        exact Or.inr ho
  | .whileStmt c b, h => by
      simp only [stmtHas, Bool.or_eq_true] at h
      rcases h with h | h
      · exact hp _ h
      · have hb := stmtListHas_complete p target hp b h
        simp only [stmtViolations, List.mem_append]
        exact Or.inr hb
theorem stmtListHas_complete (p : PyStmt → Bool) (target : String)
    (hp : ∀ s : PyStmt, p s = true → target ∈ stmtViolations s) :
    ∀ (l : PyStmtList), stmtListHas p l = true → target ∈ stmtListViolations l
  | .nil, h => by simp [stmtListHas] at h
  | .cons s ss, h => by
      simp only [stmtListHas, Bool.or_eq_true] at h
      simp only [stmtListViolations, List.mem_append]
      rcases h with h | h
      · exact Or.inl (stmtHas_complete p target hp s h)
      · exact Or.inr (stmtListHas_complete p target hp ss h)
end

theorem bareCallAt_complete (n : String)
    (hn : n ∈ SecurityChecker.DANGEROUS_NAMES) :
    ∀ (s : PyStmt), bareCallAt n s = true →
      ("Call to dangerous function: " ++ n) ∈ stmtViolations s := by
  intro s h
  cases s with
  | exprStmt e =>
      simp only [bareCallAt] at h
      simpa [stmtViolations] using exprBareCall_complete n hn e h
  | assign t v =>
      simp only [bareCallAt, Bool.or_eq_true] at h
      simp only [stmtViolations, List.mem_append]
      rcases h with h | h
      · exact Or.inl (exprBareCall_complete n hn t h)
      · exact Or.inr (exprBareCall_complete n hn v h)
  | ifStmt c b o =>
      simp only [bareCallAt] at h
      simp only [stmtViolations, List.mem_append]
      exact Or.inl (Or.inl (exprBareCall_complete n hn c h))
  | whileStmt c b =>
      simp only [bareCallAt] at h
      simp only [stmtViolations, List.mem_append]
      exact Or.inl (exprBareCall_complete n hn c h)
  | importStmt names => simp [bareCallAt] at h
  | importFrom m names lvl => simp [bareCallAt] at h
  | funcDef nm body => simp [bareCallAt] at h

theorem importAlias_complete (m : String)
    (hm : m ∈ SecurityChecker.DANGEROUS_MODULES) :
    ∀ (names : List String), names.any (fun a => pyBaseModule a == m) = true →
      ("Import of dangerous module: " ++ m) ∈ importAliasViolations names
  | [], h => by simp at h
  | a :: rest, h => by
      simp only [List.any_cons, Bool.or_eq_true] at h
      simp only [importAliasViolations, List.mem_append]
      rcases h with h | h
      · left
        rw [beq_iff_eq] at h
        rw [h]
        simp [hm]
      · exact Or.inr (importAlias_complete m hm rest h)

theorem importOfAt_complete (m : String)
    (hm : m ∈ SecurityChecker.DANGEROUS_MODULES) :
    ∀ (s : PyStmt), importOfAt m s = true →
      ("Import of dangerous module: " ++ m) ∈ stmtViolations s := by
  intro s h
  cases s with
  | importStmt names =>
      simp only [importOfAt] at h
      simpa [stmtViolations] using importAlias_complete m hm names h
  | exprStmt e => simp [importOfAt] at h
  | assign t v => simp [importOfAt] at h
  | importFrom module names lvl => simp [importOfAt] at h
  | funcDef nm body => simp [importOfAt] at h
  | ifStmt c b o => simp [importOfAt] at h
  | whileStmt c b => simp [importOfAt] at h

theorem importFromAt_complete (m : String)
    (hm : m ∈ SecurityChecker.DANGEROUS_MODULES) :
    ∀ (s : PyStmt), importFromAt m s = true →
      ("Import from dangerous module: " ++ m) ∈ stmtViolations s := by
  intro s h
  cases s with
  | importFrom module names lvl =>
      cases module with
      | some mod =>
          simp only [importFromAt, Bool.and_eq_true, beq_iff_eq] at h
          simp only [stmtViolations, importFromViolation]
          rw [h.2]
          simp [hm]
      | none => simp [importFromAt] at h
  | exprStmt e => simp [importFromAt] at h
  | assign t v => simp [importFromAt] at h
  | importStmt names => simp [importFromAt] at h
  | funcDef nm body => simp [importFromAt] at h
  | ifStmt c b o => simp [importFromAt] at h
  | whileStmt c b => simp [importFromAt] at h

theorem relFromAt_complete (b : String)
    (hb : b ∈ SecurityChecker.DANGEROUS_MODULES) :
    ∀ (s : PyStmt), relFromAt b s = true →
      ("Import from dangerous module: " ++ b) ∈ stmtViolations s := by
  intro s h
  cases s with
  | importFrom module names lvl =>
      cases module with
      | some mod =>
          simp only [relFromAt, Bool.and_eq_true, beq_iff_eq] at h
          simp only [stmtViolations, importFromViolation]
          rw [h.2]
          simp [hb]
      | none => simp [relFromAt] at h
  | exprStmt e => simp [relFromAt] at h
  | assign t v => simp [relFromAt] at h
  | importStmt names => simp [relFromAt] at h
  | funcDef nm body => simp [relFromAt] at h
  | ifStmt c b o => simp [relFromAt] at h
  | whileStmt c b => simp [relFromAt] at h

/-- C1: policy completeness of the static scan — for every parsed tree,
every dangerous identifier appearing as the callee of a bare-identifier
call yields a violation naming it, and every dangerous module appearing
as the top-level package of an import or (absolute) from-import yields a
violation naming it. -/
theorem scan_policy_completeness (t : PyStmtList) (n m : String) :
    (n ∈ SecurityChecker.DANGEROUS_NAMES → stmtListHas (bareCallAt n) t = true →
      ("Call to dangerous function: " ++ n) ∈ SecurityChecker.scan t) ∧
    (m ∈ SecurityChecker.DANGEROUS_MODULES →
      (stmtListHas (importOfAt m) t || stmtListHas (importFromAt m) t) = true →
      ("Import of dangerous module: " ++ m) ∈ SecurityChecker.scan t ∨
      ("Import from dangerous module: " ++ m) ∈ SecurityChecker.scan t) := by
  constructor
  · intro hn ht
    exact stmtListHas_complete _ _ (bareCallAt_complete n hn) t ht
  · intro hm ht
    rw [Bool.or_eq_true] at ht
    rcases ht with h | h
    · exact Or.inl (stmtListHas_complete _ _ (importOfAt_complete m hm) t h)
    · exact Or.inr (stmtListHas_complete _ _ (importFromAt_complete m hm) t h)

theorem scan_policy_completeness_witness :
    ("Call to dangerous function: " ++ "eval") ∈ SecurityChecker.scan c1WitnessTree ∧
    (("Import of dangerous module: " ++ "os") ∈ SecurityChecker.scan c1WitnessTree ∨
     ("Import from dangerous module: " ++ "os") ∈ SecurityChecker.scan c1WitnessTree) ∧
    (("Import of dangerous module: " ++ "sys") ∈ SecurityChecker.scan c1WitnessTree ∨
     ("Import from dangerous module: " ++ "sys") ∈ SecurityChecker.scan c1WitnessTree) :=
  ⟨(scan_policy_completeness c1WitnessTree "eval" "os").1 (by decide) (by decide),
   (scan_policy_completeness c1WitnessTree "eval" "os").2 (by decide) (by decide),
   (scan_policy_completeness c1WitnessTree "eval" "sys").2 (by decide) (by decide)⟩

/-- C10: relative from-imports in the scan — a from-import with no module
name produces no violation whatever names it imports, while a relative
from-import whose written module name starts with a dangerous component
is flagged as an import from that module even though it does not
reference the top-level package of that name. -/
theorem scan_relative_from_imports (names : List String) (lvl : Nat)
    (t : PyStmtList) (b : String) :
    SecurityChecker.scan (.cons (.importFrom none names lvl) .nil) = [] ∧
    (b ∈ SecurityChecker.DANGEROUS_MODULES → stmtListHas (relFromAt b) t = true →
      ("Import from dangerous module: " ++ b) ∈ SecurityChecker.scan t) := by
  constructor
  · simp [SecurityChecker.scan, stmtListViolations, stmtViolations, importFromViolation]
  · intro hb ht
    exact stmtListHas_complete _ _ (relFromAt_complete b hb) t ht

theorem scan_relative_from_imports_witness :
    SecurityChecker.scan (.cons (.importFrom none ["os"] 1) .nil) = [] ∧
    ("Import from dangerous module: " ++ "os") ∈
      SecurityChecker.scan (.cons (.importFrom (some "os.path") ["sep"] 1) .nil) :=
  ⟨(scan_relative_from_imports ["os"] 1
      (.cons (.importFrom (some "os.path") ["sep"] 1) .nil) "os").1,
   (scan_relative_from_imports ["os"] 1
      (.cons (.importFrom (some "os.path") ["sep"] 1) .nil) "os").2 (by decide) (by decide)⟩

/-! ## The template rendering contract (claim C2). -/

/-- C2 counterexample: the claimed identity for the dangerous-module list
fails at the explicit element "socket" — it belongs to the analyzer set
(and survives removing "sys" and "platform") but is absent from the list
substituted into the inner runtime template. -/
theorem template_module_list_counterexample :
    "socket" ∈
      (SecurityChecker.DANGEROUS_MODULES.toFinset ∪ {"getpass", "os"}) \ {"sys", "platform"} ∧
    "socket" ∉ sandboxDangerousModules.toFinset ∧
    sandboxDangerousModules.toFinset ≠
      (SecurityChecker.DANGEROUS_MODULES.toFinset ∪ {"getpass", "os"}) \ {"sys", "platform"} := by
  decide

/-- C2 (amended): the template name list equals the analyzer name set minus
"open" and "input"; the template module list equals the analyzer module
set plus "getpass" with "sys", "platform" and also "socket" excluded
("os" is already in the analyzer set). -/
theorem template_lists_amended :
    sandboxDangerousNames.toFinset =
      SecurityChecker.DANGEROUS_NAMES.toFinset \ {"open", "input"} ∧
    sandboxDangerousModules.toFinset =
      (SecurityChecker.DANGEROUS_MODULES.toFinset ∪ {"getpass"}) \ {"sys", "platform", "socket"} := by
  decide

/-! ## The reduced-isolation advertisement invariant (claim C3). -/

/-- C3 failing input: in the environment where pywin32 imports but the
Job-Object calls fail at runtime (the `except Exception` branch of
`SafeExecutor.run`), the child is spawned with no limit mechanism, the
evaluation is not aborted, and the platform note still advertises an
active pywin32 sandbox instead of reduced isolation. -/
theorem platform_note_silent_on_job_failure :
    limitMechanismEngaged .windowsJobFails = false ∧
    abortsEvaluation .windowsJobFails = false ∧
    getPlatformWarning .windowsJobFails = pywin32ActiveWarning ∧
    getPlatformWarning .windowsJobFails ≠ reducedLimitsWarning := by
  refine ⟨rfl, rfl, rfl, ?_⟩
  decide

/-! ## The launcher reply records (claims C4, C5, C9). -/

/-- C4: timeout contract — whenever the wall-clock deadline fires, the
launcher kills the child, attempts a one-second drain wait, and returns
the record with empty stdout, the fixed timeout message, and exit code
124 (whatever the drained streams or the child exit status were). -/
theorem run_timeout_contract (timeout : Rat) (so se : String)
    (parsed : Option JsonValue) (ec : Int) :
    SafeExecutor.run timeout ⟨true, so, se, parsed, ec⟩ =
      { actions := [.waitChild timeout, .kill, .waitChild 1],
        record := .obj
          [("stdout", .str ""),
           ("stderr", .str ("Execution timed out after " ++ toString timeout ++ " seconds")),
           ("exit_code", .num 124)] } := rfl

/-- C5 counterexample: when the child stdout is not JSON and the raw
captured stderr is empty, the returned stderr field is the fixed fallback
message, not the raw (empty) stream the claim requires. -/
theorem run_containment_counterexample :
    jsonLookup (SafeExecutor.run 15 ⟨false, "hello", "", none, 0⟩).record "stderr" =
      some (.str parseFailureMsg) ∧
    parseFailureMsg ≠ "" :=
  ⟨rfl, by decide⟩

/-- C5 (amended): when the child stdout does not parse as JSON, the
returned record carries the raw stdout, the raw stderr when that is
non-empty and the fixed fallback message when it is empty, and the child
exit code when non-zero, else 1. -/
theorem run_containment_record (timeout : Rat) (so se : String) (ec : Int) :
    jsonLookup (SafeExecutor.run timeout ⟨false, so, se, none, ec⟩).record "stdout" =
      some (.str so) ∧
    (se ≠ "" →
      jsonLookup (SafeExecutor.run timeout ⟨false, so, se, none, ec⟩).record "stderr" =
        some (.str se)) ∧
    (se = "" →
      jsonLookup (SafeExecutor.run timeout ⟨false, so, se, none, ec⟩).record "stderr" =
        some (.str parseFailureMsg)) ∧
    (ec ≠ 0 →
      jsonLookup (SafeExecutor.run timeout ⟨false, so, se, none, ec⟩).record "exit_code" =
        some (.num ec)) ∧
    (ec = 0 →
      jsonLookup (SafeExecutor.run timeout ⟨false, so, se, none, ec⟩).record "exit_code" =
        some (.num 1)) := by
  refine ⟨rfl, ?_, ?_, ?_, ?_⟩
  · intro h
    simp [SafeExecutor.run, jsonLookup, jsonFieldsLookup, h]
  · intro h
    simp [SafeExecutor.run, jsonLookup, jsonFieldsLookup, h]
  · intro h
    simp [SafeExecutor.run, jsonLookup, jsonFieldsLookup, h]
  · intro h
    simp [SafeExecutor.run, jsonLookup, jsonFieldsLookup, h]

theorem run_containment_record_witness :
    jsonLookup (SafeExecutor.run 15 ⟨false, "oops", "boom", none, 3⟩).record "stderr" =
      some (.str "boom") ∧
    jsonLookup (SafeExecutor.run 15 ⟨false, "oops", "boom", none, 3⟩).record "exit_code" =
      some (.num 3) ∧
    jsonLookup (SafeExecutor.run 15 ⟨false, "out", "", none, 0⟩).record "stderr" =
      some (.str parseFailureMsg) ∧
    jsonLookup (SafeExecutor.run 15 ⟨false, "out", "", none, 0⟩).record "exit_code" =
      some (.num 1) :=
  ⟨(run_containment_record 15 "oops" "boom" 3).2.1 (by decide),
   (run_containment_record 15 "oops" "boom" 3).2.2.2.1 (by decide),
   (run_containment_record 15 "out" "" 0).2.2.1 rfl,
   (run_containment_record 15 "out" "" 0).2.2.2.2 rfl⟩

/-- C9: unvalidated child envelope — whenever `json.loads` on the child
stdout succeeds, the launcher returns the parsed value itself as the
whole reply record, with no check that it is an object carrying stdout,
stderr and exit_code fields (the value `v` here ranges over every JSON
value, objects of any shape included). -/
theorem run_returns_parsed_unvalidated (timeout : Rat) (so se : String)
    (ec : Int) (v : JsonValue) :
    (SafeExecutor.run timeout ⟨false, so, se, some v, ec⟩).record = v := rfl

/-! ## The Unix resource-limit arithmetic (claim C8). -/

/-- C8: on the Unix path, a strictly positive CPU limit installs the
CPU-time rlimit with soft and hard both `⌊cpu_seconds⌋`, a strictly
positive memory limit installs the address-space rlimit with soft and
hard both `memory_limit_mb * 1048576` bytes, and a zero value for either
installs no rlimit of that kind. -/
theorem preexec_limits_arithmetic (cpu : Rat) (mem : Int) :
    (0 < cpu →
      ({ kind := .cpu, soft := ⌊cpu⌋, hard := ⌊cpu⌋ } : RLimit) ∈
        preexec_set_limits cpu mem) ∧
    (cpu = 0 → ∀ r ∈ preexec_set_limits cpu mem, r.kind ≠ .cpu) ∧
    (0 < mem →
      ({ kind := .addressSpace, soft := mem * 1048576, hard := mem * 1048576 } : RLimit) ∈
        preexec_set_limits cpu mem) ∧
    (mem = 0 → ∀ r ∈ preexec_set_limits cpu mem, r.kind ≠ .addressSpace) := by
  refine ⟨?_, ?_, ?_, ?_⟩
  · intro h
    have hnn : ¬ cpu < 0 := not_lt.mpr h.le
    simp [preexec_set_limits, pyInt, hnn, h, List.mem_append]
  · intro h
    subst h
    intro r hr
    simp only [preexec_set_limits] at hr
    rw [if_neg (lt_irrefl 0)] at hr
    simp only [List.nil_append] at hr
    by_cases hm : 0 < mem
    · rw [if_pos hm] at hr
      simp only [List.mem_singleton] at hr
      rw [hr]
      simp
    · rw [if_neg hm] at hr
      simp at hr
  · intro h
    have e : mem * 1024 * 1024 = mem * 1048576 := by ring
    simp [preexec_set_limits, h, e, List.mem_append]
  · intro h
    subst h
    intro r hr
    simp only [preexec_set_limits] at hr
    rw [if_neg (lt_irrefl 0)] at hr
    simp only [List.append_nil] at hr
    by_cases hc : (0 : Rat) < cpu
    · rw [if_pos hc] at hr
      simp only [List.mem_singleton] at hr
      rw [hr]
      simp
    · rw [if_neg hc] at hr
      simp at hr

theorem preexec_limits_arithmetic_witness :
    ({ kind := .cpu, soft := ⌊(5/2 : Rat)⌋, hard := ⌊(5/2 : Rat)⌋ } : RLimit) ∈
      preexec_set_limits (5/2) 100 ∧
    ({ kind := .addressSpace, soft := 100 * 1048576, hard := 100 * 1048576 } : RLimit) ∈
      preexec_set_limits (5/2) 100 ∧
    (∀ r ∈ preexec_set_limits 0 100, r.kind ≠ .cpu) ∧
    (∀ r ∈ preexec_set_limits (5/2) 0, r.kind ≠ .addressSpace) :=
  ⟨(preexec_limits_arithmetic (5/2) 100).1 (by norm_num),
   (preexec_limits_arithmetic (5/2) 100).2.2.1 (by norm_num),
   (preexec_limits_arithmetic 0 100).2.1 rfl,
   (preexec_limits_arithmetic (5/2) 0).2.2.2 rfl⟩

/-! ## Syntax-failure reporting (claims C6 and C7). -/

/-- C7 counterexample: a parser message that itself contains a parenthesis
character — CPython reports `SyntaxError: \x27(\x27 was never closed` for
the code `print(2 +` — is cut at its first parenthesis by
`str(e).split("(", 1)[0]`, so the reported error text is a lone quote
character rather than the short message with only the trailing
parenthesized position detail stripped. -/
theorem syntax_error_text_counterexample :
    jsonLookup
        (checkSyntaxTool "print(2 +"
          (.syntaxError "\x27(\x27 was never closed (<string>, line 1)" (some 1) (some 1)))
        "error" = some (.str "\x27") ∧
    specShortMessage "\x27(\x27 was never closed (<string>, line 1)" =
      "\x27(\x27 was never closed" ∧
    ("\x27" : String) ≠ "\x27(\x27 was never closed" := by
  refine ⟨rfl, ?_, by decide⟩
  rfl

/-- C7 (amended): on every parser failure the report is not-valid, its
error field is the text of the parser message before its first
parenthesis character with surrounding whitespace trimmed (which equals
the short message whenever the short message itself contains no
parenthesis), its line and offset are the parser positions passed
through unchanged, and its context is the trimmed text of the reported
offending line when that line number is in range of the source, and
empty otherwise (also when no line number was reported). -/
theorem syntax_error_report_fields (code msg : String) (lineno offset : Option Int) :
    jsonLookup (checkSyntaxTool code (.syntaxError msg lineno offset)) "valid" =
      some (.bool false) ∧
    jsonLookup (checkSyntaxTool code (.syntaxError msg lineno offset)) "error" =
      some (.str (pyStrip (pyTakeUntil '(' msg))) ∧
    jsonLookup (checkSyntaxTool code (.syntaxError msg lineno offset)) "line" =
      some (jsonOfOptInt lineno) ∧
    jsonLookup (checkSyntaxTool code (.syntaxError msg lineno offset)) "offset" =
      some (jsonOfOptInt offset) ∧
    (∀ l : Int, lineno = some l → 0 < l → l ≤ ((pySplitlines code).length : Int) →
      jsonLookup (checkSyntaxTool code (.syntaxError msg lineno offset)) "context" =
        some (.str (pyStrip ((pySplitlines code).getD (l - 1).toNat "")))) ∧
    (∀ l : Int, lineno = some l → (l ≤ 0 ∨ ((pySplitlines code).length : Int) < l) →
      jsonLookup (checkSyntaxTool code (.syntaxError msg lineno offset)) "context" =
        some (.str "")) ∧
    (lineno = none →
      jsonLookup (checkSyntaxTool code (.syntaxError msg lineno offset)) "context" =
        some (.str "")) := by
  refine ⟨rfl, rfl, rfl, rfl, ?_, ?_, ?_⟩
  · intro l hl h0 hlen
    subst hl
    have hline : syntaxContextLine code (some l) =
        (pySplitlines code).getD (l - 1).toNat "" := by
      simp only [syntaxContextLine]
      rw [if_pos ⟨ne_of_gt h0, h0, hlen⟩]
    have base : jsonLookup (checkSyntaxTool code (.syntaxError msg (some l) offset)) "context" =
        some (.str
          (if syntaxContextLine code (some l) ≠ "" then
            pyStrip (syntaxContextLine code (some l))
          else "")) := rfl
    rw [base, hline]
    by_cases he : (pySplitlines code).getD (l - 1).toNat "" = ""
    · rw [he]
      rfl
    · rw [if_pos he]
  · intro l hl hout
    subst hl
    have hline : syntaxContextLine code (some l) = "" := by
      simp only [syntaxContextLine]
      rw [if_neg]
      rintro ⟨h1, h2, h3⟩
      rcases hout with h | h
      · exact absurd h2 (not_lt.mpr h)
      · exact absurd h3 (not_le.mpr h)
    have base : jsonLookup (checkSyntaxTool code (.syntaxError msg (some l) offset)) "context" =
        some (.str
          (if syntaxContextLine code (some l) ≠ "" then
            pyStrip (syntaxContextLine code (some l))
          else "")) := rfl
    rw [base, hline]
    rfl
  · intro h
    subst h
    rfl

theorem syntax_error_report_fields_witness :
    jsonLookup
        (checkSyntaxTool "print(2 +"
          (.syntaxError "invalid syntax (<string>, line 1)" (some 1) (some 9)))
        "context" =
      some (.str (pyStrip ((pySplitlines "print(2 +").getD (((1 : Int)) - 1).toNat ""))) ∧
    jsonLookup
        (checkSyntaxTool "print(2 +"
          (.syntaxError "invalid syntax (<string>, line 1)" (some 5) (some 9)))
        "context" = some (.str "") ∧
    jsonLookup (checkSyntaxTool "x = 1" (.syntaxError "unexpected EOF" none none))
        "context" = some (.str "") :=
  ⟨(syntax_error_report_fields "print(2 +" "invalid syntax (<string>, line 1)"
      (some 1) (some 9)).2.2.2.2.1 1 rfl (by decide) (by decide),
   (syntax_error_report_fields "print(2 +" "invalid syntax (<string>, line 1)"
      (some 5) (some 9)).2.2.2.2.2.1 5 rfl (by decide),
   (syntax_error_report_fields "x = 1" "unexpected EOF" none none).2.2.2.2.2.2 rfl⟩

/-- C6 counterexample: on the syntax-failure path the reply is the syntax
report augmented with the phase marker — it carries no stdout field, no
stderr field and no exit_code field at all, against the claimed
`{stdout: "", stderr: <report>, exit_code: non-zero}` shape. -/
theorem syntax_reply_shape_counterexample :
    jsonLookup (test_code "print(2 +" c6Input).2 "phase" = some (.str "syntax_check") ∧
    jsonLookup (test_code "print(2 +" c6Input).2 "stdout" = none ∧
    jsonLookup (test_code "print(2 +" c6Input).2 "stderr" = none ∧
    jsonLookup (test_code "print(2 +" c6Input).2 "exit_code" = none :=
  ⟨rfl, rfl, rfl, rfl⟩

/-- C6 (amended): for every input failing the syntax check (a parser
syntax error or an internal checker error), `test_code` returns after the
syntax phase alone — the security scan does not run and no child is
spawned — and the reply is exactly the syntax report augmented with
`phase = "syntax_check"`; in particular it has no stdout, stderr or
exit_code fields. -/
theorem syntax_failure_reply (code msg : String) (lineno offset : Option Int)
    (timeout : Rat) (ri : RunInput) (ps : PlatformState) (em : String) :
    (test_code code ⟨.syntaxError msg lineno offset, timeout, ri, ps, em⟩).1 =
      [.syntaxPhase] ∧
    (test_code code ⟨.syntaxError msg lineno offset, timeout, ri, ps, em⟩).2 =
      .obj [("valid", .bool false),
            ("error", .str (pyStrip (pyTakeUntil '(' msg))),
            ("line", jsonOfOptInt lineno),
            ("offset", jsonOfOptInt offset),
            ("context", .str
              (if syntaxContextLine code lineno ≠ "" then
                pyStrip (syntaxContextLine code lineno)
              else "")),
            ("phase", .str "syntax_check")] ∧
    jsonLookup (test_code code ⟨.syntaxError msg lineno offset, timeout, ri, ps, em⟩).2
      "stdout" = none ∧
    jsonLookup (test_code code ⟨.syntaxError msg lineno offset, timeout, ri, ps, em⟩).2
      "stderr" = none ∧
    jsonLookup (test_code code ⟨.syntaxError msg lineno offset, timeout, ri, ps, em⟩).2
      "exit_code" = none ∧
    (test_code code ⟨.internalError msg, timeout, ri, ps, em⟩).1 = [.syntaxPhase] ∧
    (test_code code ⟨.internalError msg, timeout, ri, ps, em⟩).2 =
      .obj [("valid", .bool false),
            ("error", .str ("Internal syntax checker error: " ++ msg)),
            ("line", .null),
            ("offset", .null),
            ("context", .str ""),
            ("phase", .str "syntax_check")] :=
  ⟨rfl, rfl, rfl, rfl, rfl, rfl, rfl⟩
